import Mathlib

/-!
Shallow embedding of the authentication core of the `fastapi_project`
repository (`app/crud.py`, `app/routes/users.py`, `app/models.py`).

Modelling conventions:
* Time is a single integer timeline of seconds (naive UTC, matching the
  source's use of `datetime.utcnow()` throughout; the host timezone is
  assumed to be UTC, so `datetime.fromtimestamp` and `datetime.utcnow`
  live on the same axis).  `timedelta` values become second counts.
* The SQLAlchemy session becomes an explicit store `DB` holding the list
  of user rows in table order; `query(...).first()` is `List.find?`, and
  mutation of a fetched row object is replacement of the first matching
  row (`updateFirst`).
* bcrypt digests (passlib `CryptContext(schemes=["bcrypt"])`) are
  idealized: a well-formed digest records the hashed secret together
  with its salt, `verify` succeeds exactly when the plaintext equals the
  recorded secret, and verifying against a digest that is not a bcrypt
  digest raises passlib's `UnknownHashError` (a `ValueError`), which the
  source never catches.  Fallible Python calls therefore return
  `Except PyExn`.
* JWTs signed with the process key become `Token.signed payload`; any
  malformed or mis-signed string becomes `Token.invalid`.  Every token
  the program creates carries an `exp` claim, so `Payload.exp : Int` is
  total; `sub` and `version` are optional claims, as in the source.
  python-jose's expiry validation rejects a token exactly when
  `exp < now` (strict, zero leeway), and `verify_token` adds a second
  check of the same strict shape.
-/

namespace FastapiProject

/-- Exceptions of the Python runtime that the modelled code can raise
and does not catch. -/
inductive PyExn where
  | unknownHash
  | keyError (key : String)
deriving DecidableEq, Repr

/-- An idealized password digest: either a well-formed bcrypt hash
(recording the secret it hashes and the salt that makes repeated hashes
differ), or a string that no configured scheme recognises. -/
inductive Digest where
  | bcrypt (secret : String) (salt : Nat)
  | malformed (raw : String)
deriving DecidableEq, Repr

/-- Whether a digest is a well-formed bcrypt hash. -/
def Digest.isBcrypt : Digest → Bool
  | Digest.bcrypt _ _ => true
  | Digest.malformed _ => false

/-- `crud.hash_password` / `pwd_context.hash`: salted one-way hash. -/
def hash_password (password : String) (salt : Nat) : Digest :=
  Digest.bcrypt password salt

/-- `crud.verify_password` / `pwd_context.verify`: true iff the plain
secret hashes to the digest; passlib raises `UnknownHashError` when the
digest is not a recognisable hash, and the source does not catch it. -/
def verify_password (plain_password : String) (hashed_password : Digest) :
    Except PyExn Bool :=
  match hashed_password with
  | Digest.bcrypt secret _ => Except.ok (plain_password == secret)
  | Digest.malformed _ => Except.error PyExn.unknownHash

/-- A row of the `users` table (`models.User`). -/
structure User where
  id : Nat
  username : String
  email : String
  password : Digest
  is_confirmed : Bool
  created_at : Int
  token_version : Int
  refresh_token_version : Int
  role : String
  reset_token : Option Digest
  reset_token_expiry : Option Int
deriving DecidableEq, Repr

/-- The persistent store: the `users` table in table order. -/
structure DB where
  users : List User
deriving DecidableEq, Repr

/-- Replace the first row satisfying `p` by its image under `f`
(SQLAlchemy mutation of a fetched row object). -/
def updateFirst (p : User → Bool) (f : User → User) : List User → List User
  | [] => []
  | u :: us => if p u then f u :: us else u :: updateFirst p f us

/-- The filter of `crud.get_user_by_username_or_email`:
`or_(User.username == username, User.email == email)`.  A `None`
argument renders as `IS NULL`, and both columns are `nullable=False`,
so a `None` argument matches no row. -/
def matchesUsernameOrEmail (username email : Option String) (u : User) : Bool :=
  (match username with
   | some s => u.username == s
   | none => false)
  ||
  (match email with
   | some e => u.email == e
   | none => false)

/-- `crud.get_user_by_username_or_email`. -/
def get_user_by_username_or_email (db : DB) (username email : Option String) :
    Option User :=
  db.users.find? (matchesUsernameOrEmail username email)

/-- The validated registration payload (`schemas.UserRegister`). -/
structure UserRegister where
  username : String
  email : String
  password : String
deriving DecidableEq, Repr

/-- `crud.create_user`: hashes the password and inserts a fresh row;
column defaults from `models.User` (`is_confirmed=False`,
`created_at=utcnow`, `token_version=0`, `refresh_token_version=0`,
`role="user"`, reset fields NULL).  The generated primary key and the
bcrypt salt are explicit inputs of the model. -/
def create_user (db : DB) (user_data : UserRegister) (salt : Nat) (id : Nat)
    (now : Int) : DB × User :=
  let db_user : User :=
    { id := id
      username := user_data.username
      email := user_data.email
      password := hash_password user_data.password salt
      is_confirmed := false
      created_at := now
      token_version := 0
      refresh_token_version := 0
      role := "user"
      reset_token := none
      reset_token_expiry := none }
  ({ users := db.users ++ [db_user] }, db_user)

/-- `crud.authenticate_user`: fetch by username, then verify the
password (which can raise on a malformed stored digest). -/
def authenticate_user (db : DB) (username password : String) :
    Except PyExn (Option User) :=
  match get_user_by_username_or_email db (some username) none with
  | none => Except.ok none
  | some user =>
    match verify_password password user.password with
    | Except.error e => Except.error e
    | Except.ok ok => Except.ok (if ok then some user else none)

/-- The caller-supplied claims dictionary handed to
`crud.create_access_token`; the call sites only ever populate `sub`
and `version`. -/
structure ClaimsIn where
  sub : Option String
  version : Option Int
deriving DecidableEq, Repr

/-- A decoded JWT payload.  Every token the program signs carries an
`exp` claim. -/
structure Payload where
  sub : Option String
  version : Option Int
  exp : Int
deriving DecidableEq, Repr

/-- A JWT: either signed with the process `SECRET_KEY`, or a string
whose signature or structure check fails (`JWTError` on decode). -/
inductive Token where
  | signed (payload : Payload)
  | invalid (raw : String)
deriving DecidableEq, Repr

/-- `ACCESS_TOKEN_EXPIRE_MINUTES = 0.5`, in seconds. -/
def ACCESS_TOKEN_EXPIRE_SECONDS : Int := 30

/-- `REFRESH_TOKEN_EXPIRE_DAYS = 7`, in seconds. -/
def REFRESH_TOKEN_EXPIRE_SECONDS : Int := 7 * 24 * 3600

/-- `RESET` token validity: `timedelta(hours=1)` in seconds. -/
def RESET_TOKEN_EXPIRY_SECONDS : Int := 3600

/-- `crud.create_access_token`: copies the claims, then sets
`exp = now + expires_delta` and `version = data.get("version", 0)` —
the `version` claim is always written, defaulting to `0`. -/
def create_access_token (data : ClaimsIn) (expires_delta : Int) (now : Int) :
    Token :=
  Token.signed
    { sub := data.sub
      version := some (data.version.getD 0)
      exp := now + expires_delta }

/-- `crud.create_refresh_token`. -/
def create_refresh_token (user : User) (now : Int) : Token :=
  Token.signed
    { sub := some user.username
      version := some user.refresh_token_version
      exp := now + REFRESH_TOKEN_EXPIRE_SECONDS }

/-- `crud.verify_token`: `jose.jwt.decode` with
`verify_exp = not allow_expired` (jose rejects exactly when
`exp < now`), followed, when `allow_expired` is false, by the source's
own strict check `exp_datetime < utcnow()`.  Both checks are strict,
so a signed token is rejected iff `exp < now`. -/
def verify_token (token : Token) (now : Int) (allow_expired : Bool) :
    Option Payload :=
  match token with
  | Token.invalid _ => none
  | Token.signed payload =>
    if allow_expired then some payload
    else if payload.exp < now then none
    else some payload

/-- `crud.verify_refresh_token`: strict decode, then
`if not username or version is None`, then account lookup and
`refresh_token_version` comparison. -/
def verify_refresh_token (token : Token) (db : DB) (now : Int) : Option User :=
  match verify_token token now false with
  | none => none
  | some payload =>
    match payload.sub, payload.version with
    | some username, some version =>
      if username == "" then none
      else
        match get_user_by_username_or_email db (some username) none with
        | none => none
        | some user =>
          if user.refresh_token_version == version then some user else none
    | _, _ => none

/-- `crud.get_logged_in_user`: decode tolerating expiry
(`allow_expired=True`), then `if not username or token_version is None`,
then account lookup and `token_version` comparison. -/
def get_logged_in_user (db : DB) (token : Token) (now : Int) : Option User :=
  match verify_token token now true with
  | none => none
  | some token_data =>
    match token_data.sub, token_data.version with
    | some username, some token_version =>
      if username == "" then none
      else
        match get_user_by_username_or_email db (some username) none with
        | none => none
        | some user =>
          if user.token_version == token_version then some user else none
    | _, _ => none

/-- `crud.logout_user`: increments both version counters of the fetched
row (identified here by its primary key). -/
def logout_user (db : DB) (uid : Nat) : DB :=
  { users :=
      updateFirst (fun u => u.id == uid)
        (fun u =>
          { u with
            token_version := u.token_version + 1
            refresh_token_version := u.refresh_token_version + 1 })
        db.users }

/-- `crud.remove_unconfirmed_users` cutoff: the live line is
`one_hour_ago = datetime.utcnow() - timedelta(minutes=1)  # TEMP`,
i.e. 60 seconds, not the documented hour. -/
def SWEEP_CUTOFF_SECONDS : Int := 60

/-- `crud.remove_unconfirmed_users`: deletes every row with
`is_confirmed IS false AND created_at < now - cutoff`. -/
def remove_unconfirmed_users (db : DB) (now : Int) : DB :=
  { users :=
      db.users.filter
        (fun u =>
          !(u.is_confirmed == false
            && decide (u.created_at < now - SWEEP_CUTOFF_SECONDS))) }

/-- `crud.generate_reset_token`: fetch by email; if absent return
`None`; otherwise clear the reset fields, then store the bcrypt hash of
a fresh url-safe secret with a 1-hour expiry and return the plaintext
secret.  The randomly generated secret and its salt are explicit inputs
of the model; the intermediate commit of the cleared fields is
superseded by the second write and is folded into one update. -/
def generate_reset_token (db : DB) (email : String) (secret : String)
    (salt : Nat) (now : Int) : DB × Option String :=
  match db.users.find? (fun u => u.email == email) with
  | none => (db, none)
  | some _ =>
    ({ users :=
         updateFirst (fun u => u.email == email)
           (fun u =>
             { u with
               reset_token := some (hash_password secret salt)
               reset_token_expiry := some (now + RESET_TOKEN_EXPIRY_SECONDS) })
           db.users },
     some secret)

/-- `crud.verify_reset_token`: fetches the FIRST row whose
`reset_token` is non-NULL, then checks that row's expiry and verifies
the secret against that row's stored hash (`pwd_context.verify` can
raise on a malformed stored digest). -/
def verify_reset_token (db : DB) (token : String) (now : Int) :
    Except PyExn (Option User) :=
  match db.users.find? (fun u => u.reset_token.isSome) with
  | none => Except.ok none
  | some user =>
    match user.reset_token, user.reset_token_expiry with
    | some stored, some expiry =>
      if expiry < now then Except.ok none
      else
        match verify_password token stored with
        | Except.error e => Except.error e
        | Except.ok ok => Except.ok (if ok then some user else none)
    | some _, none => Except.ok none
    | none, _ => Except.ok none

/-- Outcomes of a route handler: an `HTTPException`, an uncaught Python
exception, or success. -/
inductive RouteError where
  | http (status : Nat) (detail : String)
  | exn (e : PyExn)
deriving DecidableEq, Repr

/-- `routes/users.py::register_user` (POST /register): conflict check,
then `create_user`.  (Token issuance and email sending leave the store
unchanged and are outside this model.) -/
def register_user (db : DB) (user : UserRegister) (salt : Nat) (id : Nat)
    (now : Int) : Except RouteError (DB × User) :=
  match get_user_by_username_or_email db (some user.username) (some user.email) with
  | some _ => Except.error (RouteError.http 400 "Username or email already registered")
  | none => Except.ok (create_user db user salt id now)

/-- `routes/users.py::login_user` (POST /login): authenticate, 401 on
failure, 403 when the account is unconfirmed, otherwise issue the
access/refresh token pair. -/
def login_user (db : DB) (username password : String) (now : Int) :
    Except RouteError (Token × Token) :=
  match authenticate_user db username password with
  | Except.error e => Except.error (RouteError.exn e)
  | Except.ok none =>
    Except.error (RouteError.http 401 "Invalid username or password")
  | Except.ok (some user) =>
    if !user.is_confirmed then
      Except.error (RouteError.http 403 "Please confirm your email before logging in")
    else
      Except.ok
        (create_access_token
           { sub := some username, version := some user.token_version }
           ACCESS_TOKEN_EXPIRE_SECONDS now,
         create_refresh_token user now)

/-- `routes/users.py::confirm_registration` (GET /confirm): strict
decode (400 on failure), `user_data["sub"]` (KeyError when the claim is
absent), account lookup (404 on failure), then set
`is_confirmed = True` and commit.  There is no already-confirmed
check. -/
def confirm_registration (db : DB) (token : Token) (now : Int) :
    Except RouteError DB :=
  match verify_token token now false with
  | none => Except.error (RouteError.http 400 "Invalid or expired token")
  | some user_data =>
    match user_data.sub with
    | none => Except.error (RouteError.exn (PyExn.keyError "sub"))
    | some sub =>
      match get_user_by_username_or_email db (some sub) none with
      | none => Except.error (RouteError.http 404 "User not found")
      | some _ =>
        Except.ok
          { users :=
              updateFirst (matchesUsernameOrEmail (some sub) none)
                (fun u => { u with is_confirmed := true })
                db.users }

/-- `routes/users.py::refresh_token` (POST /refresh): verify the
refresh token (401 on failure), then issue a fresh access token
(carrying the account's current `token_version`) and a fresh refresh
token. -/
def refresh_token (db : DB) (token : Token) (now : Int) :
    Except RouteError (Token × Token) :=
  match verify_refresh_token token db now with
  | none => Except.error (RouteError.http 401 "Invalid or expired refresh token")
  | some user =>
    Except.ok
      (create_access_token
         { sub := some user.username, version := some user.token_version }
         ACCESS_TOKEN_EXPIRE_SECONDS now,
       create_refresh_token user now)

/-- `routes/users.py::reset_password` (POST /reset-password): verify
the reset secret; on failure the handler returns an error body and the
store is unchanged; on success rewrite the password hash and clear both
reset fields on the row `verify_reset_token` returned (the first row
with a non-NULL reset token). -/
def reset_password (db : DB) (token new_password : String) (salt : Nat)
    (now : Int) : Except PyExn DB :=
  match verify_reset_token db token now with
  | Except.error e => Except.error e
  | Except.ok none => Except.ok db
  | Except.ok (some _) =>
    Except.ok
      { users :=
          updateFirst (fun u => u.reset_token.isSome)
            (fun u =>
              { u with
                password := hash_password new_password salt
                reset_token := none
                reset_token_expiry := none })
            db.users }

/-- `routes/users.py::logout_user` (POST /logout): resolve the caller
from the access token; on success bump both version counters. -/
def logout_route (db : DB) (token : Token) (now : Int) : DB :=
  match get_logged_in_user db token now with
  | none => db
  | some user => logout_user db user.id

/-- One core operation of the account lifecycle, with the
nondeterministic inputs (fresh ids, salts, secrets, clock readings)
made explicit. -/
inductive Op where
  | register (data : UserRegister) (salt : Nat) (id : Nat) (now : Int)
  | login (username password : String) (now : Int)
  | confirm (token : Token) (now : Int)
  | logout (token : Token) (now : Int)
  | requestReset (email : String) (secret : String) (salt : Nat) (now : Int)
  | resetPw (token new_password : String) (salt : Nat) (now : Int)
  | sweep (now : Int)
deriving DecidableEq, Repr

/-- Whether an operation is a logout. -/
def Op.isLogout : Op → Bool
  | Op.logout _ _ => true
  | _ => false

/-- The effect of one core operation on the store (a handler that
fails, or raises, leaves the store unchanged). -/
def step (db : DB) : Op → DB
  | Op.register data salt id now =>
    match register_user db data salt id now with
    | Except.ok (db2, _) => db2
    | Except.error _ => db
  | Op.login _ _ _ => db
  | Op.confirm token now =>
    match confirm_registration db token now with
    | Except.ok db2 => db2
    | Except.error _ => db
  | Op.logout token now => logout_route db token now
  | Op.requestReset email secret salt now =>
    (generate_reset_token db email secret salt now).1
  | Op.resetPw token new_password salt now =>
    match reset_password db token new_password salt now with
    | Except.ok db2 => db2
    | Except.error _ => db
  | Op.sweep now => remove_unconfirmed_users db now

deriving instance DecidableEq for Except

/-- The spec's success condition for `verifyResetToken`, as stated:
the account's stored reset-token hash verifies against the secret and
its stored expiry has not elapsed.  Used to compare the source's
`verify_reset_token` against the specified behaviour. -/
def specResetMatch (token : String) (now : Int) (u : User) : Bool :=
  match u.reset_token, u.reset_token_expiry with
  | some stored, some expiry =>
    !decide (expiry < now)
      && (match verify_password token stored with
          | Except.ok b => b
          | Except.error _ => false)
  | _, _ => false

/-- Sample confirmed account used by concrete witnesses. -/
def aliceU : User :=
  { id := 1
    username := "alice"
    email := "a@x.com"
    password := Digest.bcrypt "Passw0rd!" 0
    is_confirmed := true
    created_at := 0
    token_version := 3
    refresh_token_version := 5
    role := "user"
    reset_token := none
    reset_token_expiry := none }

/-- Sample account with an outstanding reset token, first in table
order in the stores below. -/
def u1R : User :=
  { id := 1
    username := "u1"
    email := "u1@x.com"
    password := Digest.bcrypt "p1" 0
    is_confirmed := true
    created_at := 0
    token_version := 0
    refresh_token_version := 0
    role := "user"
    reset_token := some (Digest.bcrypt "s1" 10)
    reset_token_expiry := some 9999 }

/-- Sample account with an outstanding reset token, second in table
order. -/
def u2R : User :=
  { id := 2
    username := "u2"
    email := "u2@x.com"
    password := Digest.bcrypt "p2" 1
    is_confirmed := true
    created_at := 0
    token_version := 0
    refresh_token_version := 0
    role := "user"
    reset_token := some (Digest.bcrypt "s2" 11)
    reset_token_expiry := some 9999 }

/-- Sample account `bob` with no outstanding reset token. -/
def bobU : User :=
  { id := 2
    username := "bob"
    email := "b@x.com"
    password := Digest.bcrypt "p2" 1
    is_confirmed := true
    created_at := 0
    token_version := 0
    refresh_token_version := 0
    role := "user"
    reset_token := none
    reset_token_expiry := none }

/-- Store with a single fresh, unconfirmed account `carol`. -/
def confDB0 : DB :=
  ⟨[{ id := 1, username := "carol", email := "c@x.com"
      password := Digest.bcrypt "p" 0, is_confirmed := false
      created_at := 0, token_version := 0, refresh_token_version := 0
      role := "user", reset_token := none, reset_token_expiry := none }]⟩

/-- `confDB0` after carol's account is confirmed. -/
def confDB1 : DB :=
  ⟨[{ id := 1, username := "carol", email := "c@x.com"
      password := Digest.bcrypt "p" 0, is_confirmed := true
      created_at := 0, token_version := 0, refresh_token_version := 0
      role := "user", reset_token := none, reset_token_expiry := none }]⟩

/-- A valid confirmation token for carol, expiring at time 100. -/
def confTok : Token :=
  Token.signed { sub := some "carol", version := none, exp := 100 }

/-- Sample unconfirmed account used by concrete witnesses. -/
def eveU : User :=
  { id := 7
    username := "eve"
    email := "e@x.com"
    password := Digest.bcrypt "Secr3t!" 4
    is_confirmed := false
    created_at := 0
    token_version := 0
    refresh_token_version := 0
    role := "user"
    reset_token := none
    reset_token_expiry := none }

theorem mem_updateFirst {p : User → Bool} {f : User → User} {l : List User}
    {v : User} (hv : v ∈ updateFirst p f l) :
    v ∈ l ∨ ∃ u, u ∈ l ∧ v = f u := by
  induction l with
  | nil => simp [updateFirst] at hv
  | cons a t ih =>
    by_cases hp : p a
    · simp only [updateFirst, if_pos hp, List.mem_cons] at hv
      rcases hv with h | h
      · exact Or.inr ⟨a, List.mem_cons_self a t, h⟩
      · exact Or.inl (List.mem_cons_of_mem a h)
    · simp only [updateFirst, if_neg hp, List.mem_cons] at hv
      rcases hv with h | h
      · exact Or.inl (h ▸ List.mem_cons_self a t)
      · rcases ih h with h1 | ⟨u, hu, hv2⟩
        · exact Or.inl (List.mem_cons_of_mem a h1)
        · exact Or.inr ⟨u, List.mem_cons_of_mem a hu, hv2⟩

theorem find?_updateFirst {p : User → Bool} {f : User → User}
    (hpf : ∀ u, p (f u) = p u) (l : List User) :
    (updateFirst p f l).find? p = (l.find? p).map f := by
  induction l with
  | nil => simp [updateFirst]
  | cons a t ih =>
    by_cases hp : p a
    · rw [updateFirst, if_pos hp, List.find?_cons_of_pos _ (by rw [hpf]; exact hp),
        List.find?_cons_of_pos _ hp, Option.map_some']
    · rw [updateFirst, if_neg hp, List.find?_cons_of_neg _ hp,
        List.find?_cons_of_neg _ hp, ih]

theorem find?_updateFirst_of_ids_nodup {p : User → Bool} {f : User → User}
    {l : List User} {u : User}
    (hnd : (l.map User.id).Nodup) (hfind : l.find? p = some u)
    (hid : (f u).id = u.id) (hp : p (f u) = true) :
    (updateFirst (fun v => v.id == u.id) f l).find? p = some (f u) := by
  induction l with
  | nil => simp at hfind
  | cons a t ih =>
    by_cases hpa : p a
    · rw [List.find?_cons_of_pos _ hpa, Option.some_inj] at hfind
      subst hfind
      rw [updateFirst, if_pos (by simp), List.find?_cons_of_pos _ hp]
    · rw [List.find?_cons_of_neg _ hpa] at hfind
      have hmem : u ∈ t := List.mem_of_find?_eq_some hfind
      have hane : (a.id == u.id) = false := by
        simp only [List.map_cons, List.nodup_cons] at hnd
        have : a.id ≠ u.id := fun h => hnd.1 (h ▸ List.mem_map_of_mem User.id hmem)
        simpa using this
      rw [updateFirst, if_neg (by simpa using hane), List.find?_cons_of_neg _ hpa]
      exact ih (by simp only [List.map_cons, List.nodup_cons] at hnd; exact hnd.2) hfind

theorem updateFirst_idem {p : User → Bool} {f : User → User}
    (hpf : ∀ u, p (f u) = p u) (hff : ∀ u, f (f u) = f u) (l : List User) :
    updateFirst p f (updateFirst p f l) = updateFirst p f l := by
  induction l with
  | nil => rfl
  | cons a t ih =>
    by_cases hp : p a
    · rw [updateFirst, if_pos hp, updateFirst, if_pos (by rw [hpf]; exact hp), hff]
    · rw [updateFirst, if_neg hp, updateFirst, if_neg hp, ih]

theorem updateFirst_updateFirst {q : User → Bool} {f g : User → User}
    (hqf : ∀ u, q (f u) = q u) (l : List User) :
    updateFirst q g (updateFirst q f l) = updateFirst q (fun u => g (f u)) l := by
  induction l with
  | nil => rfl
  | cons a t ih =>
    by_cases hq : q a
    · rw [updateFirst, if_pos hq, updateFirst, if_pos (by rw [hqf]; exact hq), updateFirst, if_pos hq]
    · rw [updateFirst, if_neg hq, updateFirst, if_neg hq, updateFirst, if_neg hq, ih]

theorem find?_updateFirst_of_forall {p q : User → Bool} {f : User → User}
    {l : List User} {u : User}
    (hfind : l.find? q = some u)
    (himp : ∀ v ∈ l, p v = true → q v = true)
    (hpf : p (f u) = true) :
    (updateFirst q f l).find? p = some (f u) := by
  induction l with
  | nil => simp at hfind
  | cons a t ih =>
    by_cases hqa : q a
    · rw [List.find?_cons_of_pos _ hqa, Option.some_inj] at hfind
      subst hfind
      rw [updateFirst, if_pos hqa, List.find?_cons_of_pos _ hpf]
    · rw [List.find?_cons_of_neg _ hqa] at hfind
      have hpa : p a = false := by
        by_contra hcon
        exact hqa (himp a (List.mem_cons_self a t) (by simpa using hcon))
      rw [updateFirst, if_neg hqa, List.find?_cons_of_neg _ (by simp [hpa])]
      exact ih hfind (fun v hv => himp v (List.mem_cons_of_mem a hv))

theorem eq_of_mem_of_length_le_one {α : Type} {l : List α} (h : l.length ≤ 1)
    {a b : α} (ha : a ∈ l) (hb : b ∈ l) : a = b := by
  match l with
  | [] => cases ha
  | [x] =>
    simp only [List.mem_singleton] at ha hb
    rw [ha, hb]
  | x :: y :: t => simp at h

/-- C1: for every account found by username lookup, `logout_user`
increments both `token_version` and `refresh_token_version` by exactly
1, and afterwards every access token issued before the call (whose
`version` claim equals the pre-logout `token_version`) is rejected by
`get_logged_in_user` at every verification time, regardless of the
token's embedded expiry. -/
theorem claim_C1_logout_invalidates (db : DB) (uname : String) (u : User)
    (delta issuedAt : Int)
    (hnd : (db.users.map User.id).Nodup)
    (hfind : get_user_by_username_or_email db (some uname) none = some u) :
    get_user_by_username_or_email (logout_user db u.id) (some uname) none =
      some { u with token_version := u.token_version + 1
                    refresh_token_version := u.refresh_token_version + 1 }
    ∧ ∀ now : Int,
        get_logged_in_user (logout_user db u.id)
          (create_access_token
            { sub := some uname, version := some u.token_version }
            delta issuedAt) now = none := by
  have hpu : matchesUsernameOrEmail (some uname) none u = true :=
    List.find?_some hfind
  have hlookup :
      get_user_by_username_or_email (logout_user db u.id) (some uname) none =
        some { u with token_version := u.token_version + 1
                      refresh_token_version := u.refresh_token_version + 1 } := by
    unfold get_user_by_username_or_email logout_user
    exact find?_updateFirst_of_ids_nodup hnd hfind rfl hpu
  refine ⟨hlookup, fun now => ?_⟩
  by_cases hemp : uname = ""
  · simp [get_logged_in_user, verify_token, create_access_token, hemp]
  · simp only [get_logged_in_user, verify_token, create_access_token]
    simp [hemp]
    rw [hlookup]
    simp

/-- C1 witness: a concrete one-account store. -/
theorem claim_C1_witness :
    get_user_by_username_or_email (logout_user ⟨[aliceU]⟩ aliceU.id)
      (some "alice") none =
      some { aliceU with token_version := aliceU.token_version + 1
                         refresh_token_version := aliceU.refresh_token_version + 1 }
    ∧ get_logged_in_user (logout_user ⟨[aliceU]⟩ aliceU.id)
        (create_access_token
          { sub := some "alice", version := some aliceU.token_version } 30 0)
        17 = none :=
  ⟨(claim_C1_logout_invalidates ⟨[aliceU]⟩ "alice" aliceU 30 0
      (by decide) (by decide)).1,
   (claim_C1_logout_invalidates ⟨[aliceU]⟩ "alice" aliceU 30 0
      (by decide) (by decide)).2 17⟩

/-- C2 counterexample: `create_access_token` always writes a `version`
claim (defaulting to 0), so decoding before expiry does NOT return the
caller-supplied claims unchanged when they lack `version`; moreover at
`t = exp` (`t ≥ exp`) the decode still succeeds instead of failing. -/
theorem claim_C2_counterexample :
    verify_token (create_access_token { sub := some "alice", version := none } 30 0)
      10 false = some { sub := some "alice", version := some 0, exp := 30 }
    ∧ ({ sub := some "alice", version := some 0, exp := 30 } : Payload)
        ≠ { sub := some "alice", version := none, exp := 30 }
    ∧ verify_token (create_access_token { sub := some "alice", version := none } 30 0)
        30 false = some { sub := some "alice", version := some 0, exp := 30 } := by
  decide

/-- C2 amended: decoding an encoded token returns the caller-supplied
claims with `version` defaulted to 0 and `exp = now + ttl`; the strict
decode fails exactly when the verification time is strictly after the
embedded expiry, and with `allow_expired` it always succeeds. -/
theorem claim_C2_roundtrip (data : ClaimsIn) (ttl now t : Int) :
    (¬ now + ttl < t →
      verify_token (create_access_token data ttl now) t false
        = some { sub := data.sub, version := some (data.version.getD 0)
                 exp := now + ttl })
    ∧ (now + ttl < t →
      verify_token (create_access_token data ttl now) t false = none)
    ∧ verify_token (create_access_token data ttl now) t true
        = some { sub := data.sub, version := some (data.version.getD 0)
                 exp := now + ttl } := by
  refine ⟨fun h => ?_, fun h => ?_, ?_⟩
  · simp [verify_token, create_access_token, h]
  · simp [verify_token, create_access_token, h]
  · simp [verify_token, create_access_token]

/-- C2 witness: concrete round-trip strictly before expiry. -/
theorem claim_C2_witness :
    verify_token (create_access_token { sub := some "a", version := some 2 } 30 0)
      10 false = some { sub := some "a", version := some 2, exp := 30 } :=
  (claim_C2_roundtrip { sub := some "a", version := some 2 } 30 0 10).1 (by decide)

/-- C4: evaluation of the sweeper at the failing input.  The live code
uses a 60-second cutoff (`timedelta(minutes=1)  # TEMP`), contradicting
its own docstring and the 1-hour policy: an unconfirmed account created
30 minutes (1800 s) before the run is deleted along with the one
created 61 minutes (3660 s) before, instead of surviving. -/
theorem claim_C4_sweeper_bug :
    remove_unconfirmed_users
      ⟨[{ id := 1, username := "old61", email := "o@x.com"
          password := Digest.bcrypt "p" 0, is_confirmed := false
          created_at := 10000 - 3660, token_version := 0
          refresh_token_version := 0, role := "user"
          reset_token := none, reset_token_expiry := none },
        { id := 2, username := "young30", email := "y@x.com"
          password := Digest.bcrypt "q" 1, is_confirmed := false
          created_at := 10000 - 1800, token_version := 0
          refresh_token_version := 0, role := "user"
          reset_token := none, reset_token_expiry := none }]⟩ 10000
      = ⟨[]⟩ := by decide

/-- C6 counterexample: on a malformed digest `verify_password`
propagates passlib's `UnknownHashError` instead of returning false. -/
theorem claim_C6_counterexample :
    verify_password "pw" (Digest.malformed "not-a-hash")
      = Except.error PyExn.unknownHash
    ∧ Except.error PyExn.unknownHash ≠ (Except.ok false : Except PyExn Bool) := by
  decide

/-- C6 amended: for a well-formed digest, `verify_password` never
raises and returns true exactly when the secret hashes to the digest;
for a malformed digest it raises (propagates `UnknownHashError`)
rather than returning false. -/
theorem claim_C6_verify (plain secret raw : String) (salt : Nat) :
    verify_password plain (hash_password secret salt) = Except.ok (plain == secret)
    ∧ verify_password secret (hash_password secret salt) = Except.ok true
    ∧ verify_password plain (Digest.malformed raw) = Except.error PyExn.unknownHash := by
  refine ⟨rfl, ?_, rfl⟩
  simp [verify_password, hash_password]

/-- C5: the refresh endpoint decodes strictly (a time-expired refresh
token yields 401 outright); success happens exactly when the token's
`sub` resolves to an account whose `refresh_token_version` equals the
token's `version` claim, and then a freshly issued access token
(carrying the account's current `token_version`) and a freshly issued
refresh token are returned. -/
theorem claim_C5_refresh_strict (db : DB) (p : Payload) (now : Int) :
    (p.exp < now →
      refresh_token db (Token.signed p) now
        = Except.error (RouteError.http 401 "Invalid or expired refresh token"))
    ∧ (∀ access new_refresh,
        refresh_token db (Token.signed p) now = Except.ok (access, new_refresh) →
        ∃ username version user,
          p.sub = some username ∧ p.version = some version ∧ username ≠ "" ∧
          get_user_by_username_or_email db (some username) none = some user ∧
          user.refresh_token_version = version ∧ ¬ p.exp < now ∧
          access = create_access_token
            { sub := some user.username, version := some user.token_version }
            ACCESS_TOKEN_EXPIRE_SECONDS now ∧
          new_refresh = create_refresh_token user now)
    ∧ (∀ username version user,
        p.sub = some username → p.version = some version → username ≠ "" →
        ¬ p.exp < now →
        get_user_by_username_or_email db (some username) none = some user →
        user.refresh_token_version = version →
        refresh_token db (Token.signed p) now
          = Except.ok
              (create_access_token
                { sub := some user.username, version := some user.token_version }
                ACCESS_TOKEN_EXPIRE_SECONDS now,
               create_refresh_token user now)) := by
  refine ⟨?_, ?_, ?_⟩
  · intro hexp
    simp [refresh_token, verify_refresh_token, verify_token, hexp]
  · intro access new_refresh h
    by_cases hexp : p.exp < now
    · simp [refresh_token, verify_refresh_token, verify_token, hexp] at h
    cases hsub : p.sub with
    | none => simp [refresh_token, verify_refresh_token, verify_token, hexp, hsub] at h
    | some username =>
      cases hver : p.version with
      | none => simp [refresh_token, verify_refresh_token, verify_token, hexp, hsub, hver] at h
      | some version =>
        by_cases hne : username = ""
        · simp [refresh_token, verify_refresh_token, verify_token, hexp, hsub, hver, hne] at h
        cases hlk : get_user_by_username_or_email db (some username) none with
        | none =>
          simp [refresh_token, verify_refresh_token, verify_token, hexp, hsub, hver, hne, hlk] at h
        | some user =>
          by_cases hvm : user.refresh_token_version = version
          · refine ⟨username, version, user, rfl, rfl, hne, hlk, hvm, hexp, ?_, ?_⟩
            · simp [refresh_token, verify_refresh_token, verify_token,
                hexp, hsub, hver, hne, hlk, hvm] at h
              exact h.1.symm
            · simp [refresh_token, verify_refresh_token, verify_token,
                hexp, hsub, hver, hne, hlk, hvm] at h
              exact h.2.symm
          · simp [refresh_token, verify_refresh_token, verify_token,
              hexp, hsub, hver, hne, hlk, hvm] at h
  · intro username version user hsub hver hne hexp hlk hvm
    simp [refresh_token, verify_refresh_token, verify_token, hexp, hsub, hver, hne, hlk, hvm]

/-- C5 witness: a concrete successful refresh. -/
theorem claim_C5_witness :
    refresh_token ⟨[aliceU]⟩ (Token.signed { sub := some "alice", version := some 5, exp := 100 }) 50
      = Except.ok
          (create_access_token { sub := some "alice", version := some 3 }
            ACCESS_TOKEN_EXPIRE_SECONDS 50,
           create_refresh_token aliceU 50) :=
  (claim_C5_refresh_strict ⟨[aliceU]⟩
      { sub := some "alice", version := some 5, exp := 100 } 50).2.2
    "alice" 5 aliceU rfl rfl (by decide) (by decide) (by decide) (by decide)

/-- C7 counterexample: confirming twice with the same valid token
succeeds BOTH times — the second call is not rejected for the account
being already confirmed, contrary to the claim. -/
theorem claim_C7_counterexample :
    confirm_registration confDB0 confTok 0 = Except.ok confDB1
    ∧ confirm_registration confDB1 confTok 0 = Except.ok confDB1 := by decide

/-- C7 amended: a second `confirm` with the same still-valid token also
SUCCEEDS, and it has no side effects beyond the first call: the store
after two calls equals the store after one. -/
theorem claim_C7_confirm_idempotent (db db1 : DB) (p : Payload) (t1 t2 : Int)
    (h1 : confirm_registration db (Token.signed p) t1 = Except.ok db1)
    (h2 : ¬ p.exp < t2) :
    confirm_registration db1 (Token.signed p) t2 = Except.ok db1 := by
  by_cases hexp1 : p.exp < t1
  · simp [confirm_registration, verify_token, hexp1] at h1
  cases hsub : p.sub with
  | none => simp [confirm_registration, verify_token, hexp1, hsub] at h1
  | some s =>
    cases hlk : get_user_by_username_or_email db (some s) none with
    | none => simp [confirm_registration, verify_token, hexp1, hsub, hlk] at h1
    | some u0 =>
      have hpf : ∀ u : User,
          matchesUsernameOrEmail (some s) none { u with is_confirmed := true }
            = matchesUsernameOrEmail (some s) none u := fun _ => rfl
      have hdb1 : db1 =
          ⟨updateFirst (matchesUsernameOrEmail (some s) none)
            (fun u => { u with is_confirmed := true }) db.users⟩ := by
        simp [confirm_registration, verify_token, hexp1, hsub, hlk] at h1
        exact h1.symm
      have hlk1 : get_user_by_username_or_email db1 (some s) none
          = some { u0 with is_confirmed := true } := by
        rw [hdb1]
        unfold get_user_by_username_or_email
        rw [show (⟨updateFirst (matchesUsernameOrEmail (some s) none)
              (fun u => { u with is_confirmed := true }) db.users⟩ : DB).users
            = updateFirst (matchesUsernameOrEmail (some s) none)
              (fun u => { u with is_confirmed := true }) db.users from rfl]
        rw [find?_updateFirst hpf]
        have : db.users.find? (matchesUsernameOrEmail (some s) none) = some u0 := hlk
        rw [this, Option.map_some']
      simp [confirm_registration, verify_token, h2, hsub, hlk1]
      rw [hdb1]
      have : updateFirst (matchesUsernameOrEmail (some s) none)
            (fun u => { u with is_confirmed := true })
            (updateFirst (matchesUsernameOrEmail (some s) none)
              (fun u => { u with is_confirmed := true }) db.users)
          = updateFirst (matchesUsernameOrEmail (some s) none)
              (fun u => { u with is_confirmed := true }) db.users :=
        updateFirst_idem hpf (fun _ => rfl) db.users
      simp [this]

/-- C7 witness: the concrete second confirmation succeeds without
further change. -/
theorem claim_C7_witness :
    confirm_registration confDB1 confTok 5 = Except.ok confDB1 :=
  claim_C7_confirm_idempotent confDB0 confDB1
    { sub := some "carol", version := none, exp := 100 } 0 5
    (by decide) (by decide)

/-- C8: login with correct credentials for an unconfirmed account
fails with HTTP 403 and a confirm-your-email message, observably
distinct from the HTTP 401 invalid-credentials outcome produced when
authentication fails. -/
theorem claim_C8_login_not_confirmed (db : DB) (username password : String)
    (now : Int) (u : User)
    (hauth : authenticate_user db username password = Except.ok (some u))
    (hunconf : u.is_confirmed = false) :
    login_user db username password now
      = Except.error (RouteError.http 403 "Please confirm your email before logging in")
    ∧ (∀ db2 u2 p2 now2, authenticate_user db2 u2 p2 = Except.ok none →
        login_user db2 u2 p2 now2
          = Except.error (RouteError.http 401 "Invalid username or password"))
    ∧ RouteError.http 403 "Please confirm your email before logging in"
        ≠ RouteError.http 401 "Invalid username or password" := by
  refine ⟨?_, ?_, ?_⟩
  · simp [login_user, hauth, hunconf]
  · intro db2 u2 p2 now2 h
    simp [login_user, h]
  · simp

/-- C8 witness: concrete unconfirmed account with correct password. -/
theorem claim_C8_witness :
    login_user ⟨[eveU]⟩ "eve" "Secr3t!" 0
      = Except.error (RouteError.http 403 "Please confirm your email before logging in") :=
  (claim_C8_login_not_confirmed ⟨[eveU]⟩ "eve" "Secr3t!" 0 eveU
      (by decide) (by decide)).1

/-- C3 counterexample: with two accounts holding outstanding reset
tokens, `verify_reset_token` returns no account for the secret of the
SECOND one, because it only ever examines the first row with a
non-NULL reset token — even though the second account's stored hash
verifies and its expiry has not elapsed. -/
theorem claim_C3_counterexample :
    verify_reset_token ⟨[u1R, u2R]⟩ "s2" 0 = Except.ok none
    ∧ u2R ∈ (⟨[u1R, u2R]⟩ : DB).users
    ∧ u2R.reset_token = some (Digest.bcrypt "s2" 11)
    ∧ verify_password "s2" (Digest.bcrypt "s2" 11) = Except.ok true
    ∧ u2R.reset_token_expiry = some 9999
    ∧ ¬ (9999 : Int) < 0 := by decide

/-- C3 amended: restricted to stores in which at most one account has
an outstanding reset token (and stored reset hashes are well-formed),
`verify_reset_token` returns exactly the account whose stored hash
verifies against the secret and whose expiry has not elapsed, and
returns no account when no such account exists. -/
theorem claim_C3_reset_lookup (db : DB) (token : String) (now : Int)
    (hone : (db.users.filter (fun u => u.reset_token.isSome)).length ≤ 1)
    (hwf : ∀ u ∈ db.users, u.reset_token.all Digest.isBcrypt = true) :
    (∀ u, verify_reset_token db token now = Except.ok (some u) ↔
       (u ∈ db.users ∧ specResetMatch token now u = true))
    ∧ ((∀ u ∈ db.users, specResetMatch token now u = false) →
        verify_reset_token db token now = Except.ok none) := by
  cases hfind : db.users.find? (fun u => u.reset_token.isSome) with
  | none =>
    have hnone : ∀ w ∈ db.users, w.reset_token.isSome = false := by
      intro w hw
      have := List.find?_eq_none.mp hfind w hw
      simpa using this
    have hnomatch : ∀ w ∈ db.users, specResetMatch token now w = false := by
      intro w hw
      cases hrt : w.reset_token with
      | none => simp [specResetMatch, hrt]
      | some d => have := hnone w hw; rw [hrt] at this; simp at this
    refine ⟨fun u => ?_, fun _ => ?_⟩
    · simp only [verify_reset_token, hfind]
      constructor
      · intro h; simp at h
      · rintro ⟨hu, hm⟩
        rw [hnomatch u hu] at hm
        simp at hm
    · simp only [verify_reset_token, hfind]
  | some u0 =>
    have hu0mem : u0 ∈ db.users := List.mem_of_find?_eq_some hfind
    have hu0some : u0.reset_token.isSome = true := by
      simpa using List.find?_some hfind
    have huniq : ∀ w ∈ db.users, w.reset_token.isSome = true → w = u0 := by
      intro w hw hws
      exact eq_of_mem_of_length_le_one hone
        (List.mem_filter.mpr ⟨hw, by simpa using hws⟩)
        (List.mem_filter.mpr ⟨hu0mem, by simpa using hu0some⟩)
    have hmatch_eq : ∀ w ∈ db.users, specResetMatch token now w = true → w = u0 := by
      intro w hw hm
      refine huniq w hw ?_
      cases hrt : w.reset_token with
      | none => simp [specResetMatch, hrt] at hm
      | some d => simp [hrt]
    obtain ⟨stored, hstored⟩ : ∃ d, u0.reset_token = some d := by
      cases hrt : u0.reset_token with
      | none => rw [hrt] at hu0some; simp at hu0some
      | some d => exact ⟨d, rfl⟩
    obtain ⟨s, k, hbc⟩ : ∃ s k, stored = Digest.bcrypt s k := by
      have := hwf u0 hu0mem
      rw [hstored] at this
      cases stored with
      | bcrypt s k => exact ⟨s, k, rfl⟩
      | malformed r => simp [Digest.isBcrypt] at this
    cases hexp : u0.reset_token_expiry with
    | none =>
      have hres : verify_reset_token db token now = Except.ok none := by
        simp [verify_reset_token, hfind, hstored, hexp]
      refine ⟨fun u => ?_, fun _ => hres⟩
      rw [hres]
      constructor
      · intro h; simp at h
      · rintro ⟨hu, hm⟩
        have := hmatch_eq u hu hm
        subst this
        simp [specResetMatch, hstored, hexp] at hm
    | some expiry =>
      by_cases hlate : expiry < now
      · have hres : verify_reset_token db token now = Except.ok none := by
          simp [verify_reset_token, hfind, hstored, hexp, hlate]
        refine ⟨fun u => ?_, fun _ => hres⟩
        rw [hres]
        constructor
        · intro h; simp at h
        · rintro ⟨hu, hm⟩
          have := hmatch_eq u hu hm
          subst this
          simp [specResetMatch, hstored, hexp, hlate] at hm
      · by_cases htok : token = s
        · have hres : verify_reset_token db token now = Except.ok (some u0) := by
            simp [verify_reset_token, hfind, hstored, hexp, hlate, hbc,
              verify_password, htok]
          have hm0 : specResetMatch token now u0 = true := by
            simp [specResetMatch, hstored, hexp, hlate, hbc, verify_password, htok]
          refine ⟨fun u => ?_, fun hall => ?_⟩
          · rw [hres]
            constructor
            · intro h
              simp only [Except.ok.injEq, Option.some.injEq] at h
              subst h
              exact ⟨hu0mem, hm0⟩
            · rintro ⟨hu, hm⟩
              have := hmatch_eq u hu hm
              subst this
              rfl
          · exact absurd hm0 (by simp [hall u0 hu0mem])
        · have hres : verify_reset_token db token now = Except.ok none := by
            simp [verify_reset_token, hfind, hstored, hexp, hlate, hbc,
              verify_password, htok]
          refine ⟨fun u => ?_, fun _ => hres⟩
          rw [hres]
          constructor
          · intro h; simp at h
          · rintro ⟨hu, hm⟩
            have := hmatch_eq u hu hm
            subst this
            simp [specResetMatch, hstored, hexp, hlate, hbc, verify_password, htok] at hm

/-- C3 witness: a store with a single outstanding reset token, where
the matching secret returns that account. -/
theorem claim_C3_witness :
    verify_reset_token ⟨[u1R]⟩ "s1" 0 = Except.ok (some u1R) :=
  ((claim_C3_reset_lookup ⟨[u1R]⟩ "s1" 0 (by decide) (by decide)).1 u1R).mpr
    ⟨by decide, by decide⟩

/-- Helper for C9: a successful confirmation only flips
`is_confirmed` on the first row matching the token's subject. -/
theorem confirm_registration_ok_shape {db db2 : DB} {token : Token} {now : Int}
    (h : confirm_registration db token now = Except.ok db2) :
    ∃ s, db2 = ⟨updateFirst (matchesUsernameOrEmail (some s) none)
                  (fun u => { u with is_confirmed := true }) db.users⟩ := by
  cases token with
  | invalid r => simp [confirm_registration, verify_token] at h
  | signed p =>
    by_cases hexp : p.exp < now
    · simp [confirm_registration, verify_token, hexp] at h
    cases hsub : p.sub with
    | none => simp [confirm_registration, verify_token, hexp, hsub] at h
    | some s =>
      cases hlk : get_user_by_username_or_email db (some s) none with
      | none => simp [confirm_registration, verify_token, hexp, hsub, hlk] at h
      | some u0 =>
        simp [confirm_registration, verify_token, hexp, hsub, hlk] at h
        exact ⟨s, h.symm⟩

/-- C9: across every core operation, an account's `token_version` and
`refresh_token_version` never decrease; every account present after a
step either existed before with counters unchanged (or bumped by
exactly 1, only by a logout), or is a freshly created account with
both counters initialized to 0. -/
theorem claim_C9_versions_monotone (db : DB) (op : Op) (v : User)
    (hv : v ∈ (step db op).users) :
    (∃ u, u ∈ db.users ∧ u.id = v.id
       ∧ u.token_version ≤ v.token_version
       ∧ u.refresh_token_version ≤ v.refresh_token_version
       ∧ ((v.token_version = u.token_version
           ∧ v.refresh_token_version = u.refresh_token_version)
          ∨ (op.isLogout = true ∧ v.token_version = u.token_version + 1
             ∧ v.refresh_token_version = u.refresh_token_version + 1)))
    ∨ (v.token_version = 0 ∧ v.refresh_token_version = 0) := by
  have base : ∀ w : User, w ∈ db.users → w = v →
      (∃ u, u ∈ db.users ∧ u.id = v.id
         ∧ u.token_version ≤ v.token_version
         ∧ u.refresh_token_version ≤ v.refresh_token_version
         ∧ ((v.token_version = u.token_version
             ∧ v.refresh_token_version = u.refresh_token_version)
            ∨ (op.isLogout = true ∧ v.token_version = u.token_version + 1
               ∧ v.refresh_token_version = u.refresh_token_version + 1)))
      ∨ (v.token_version = 0 ∧ v.refresh_token_version = 0) := by
    intro w hw hwv
    subst hwv
    exact Or.inl ⟨w, hw, rfl, le_refl _, le_refl _, Or.inl ⟨rfl, rfl⟩⟩
  cases op with
  | register data salt id now =>
    cases hreg : register_user db data salt id now with
    | error e =>
      simp only [step, hreg] at hv
      exact base v hv rfl
    | ok pair =>
      obtain ⟨db2, u2⟩ := pair
      simp only [step, hreg] at hv
      have hins : db2.users = db.users ++ [(create_user db data salt id now).2] := by
        unfold register_user at hreg
        cases hlk : get_user_by_username_or_email db (some data.username) (some data.email) with
        | some w => rw [hlk] at hreg; simp at hreg
        | none =>
          rw [hlk] at hreg
          simp only [Except.ok.injEq] at hreg
          have h1 : (create_user db data salt id now).1 = db2 := by rw [hreg]
          rw [← h1]
          rfl
      rw [hins] at hv
      rcases List.mem_append.mp hv with hold | hnew
      · exact base v hold rfl
      · simp only [List.mem_singleton] at hnew
        subst hnew
        exact Or.inr ⟨rfl, rfl⟩
  | login username password now =>
    simp only [step] at hv
    exact base v hv rfl
  | confirm token now =>
    cases hc : confirm_registration db token now with
    | error e =>
      simp only [step, hc] at hv
      exact base v hv rfl
    | ok db2 =>
      simp only [step, hc] at hv
      obtain ⟨s, hdb2⟩ := confirm_registration_ok_shape hc
      rw [hdb2] at hv
      rcases mem_updateFirst hv with hold | ⟨u, hu, hvf⟩
      · exact base v hold rfl
      · subst hvf
        exact Or.inl ⟨u, hu, rfl, le_refl _, le_refl _, Or.inl ⟨rfl, rfl⟩⟩
  | logout token now =>
    simp only [step, logout_route] at hv
    cases hg : get_logged_in_user db token now with
    | none =>
      rw [hg] at hv
      exact base v hv rfl
    | some user =>
      rw [hg] at hv
      simp only [logout_user] at hv
      rcases mem_updateFirst hv with hold | ⟨u, hu, hvf⟩
      · exact base v hold rfl
      · subst hvf
        exact Or.inl ⟨u, hu, rfl, by simp, by simp,
          Or.inr ⟨rfl, rfl, rfl⟩⟩
  | requestReset email secret salt now =>
    simp only [step, generate_reset_token] at hv
    cases hf : db.users.find? (fun u => u.email == email) with
    | none =>
      rw [hf] at hv
      exact base v hv rfl
    | some w =>
      rw [hf] at hv
      simp only at hv
      rcases mem_updateFirst hv with hold | ⟨u, hu, hvf⟩
      · exact base v hold rfl
      · subst hvf
        exact Or.inl ⟨u, hu, rfl, le_refl _, le_refl _, Or.inl ⟨rfl, rfl⟩⟩
  | resetPw token new_password salt now =>
    cases hr : reset_password db token new_password salt now with
    | error e =>
      simp only [step, hr] at hv
      exact base v hv rfl
    | ok db2 =>
      simp only [step, hr] at hv
      unfold reset_password at hr
      cases hvr : verify_reset_token db token now with
      | error e => rw [hvr] at hr; simp at hr
      | ok res =>
        cases res with
        | none =>
          rw [hvr] at hr
          simp only [Except.ok.injEq] at hr
          rw [← hr] at hv
          exact base v hv rfl
        | some w =>
          rw [hvr] at hr
          simp only [Except.ok.injEq] at hr
          rw [← hr] at hv
          rcases mem_updateFirst hv with hold | ⟨u, hu, hvf⟩
          · exact base v hold rfl
          · subst hvf
            exact Or.inl ⟨u, hu, rfl, le_refl _, le_refl _, Or.inl ⟨rfl, rfl⟩⟩
  | sweep now =>
    simp only [step, remove_unconfirmed_users] at hv
    exact base v (List.mem_filter.mp hv).1 rfl

/-- C9 witness: a confirmed account survives a sweep with counters
unchanged. -/
theorem claim_C9_witness :
    (∃ u, u ∈ (⟨[aliceU]⟩ : DB).users ∧ u.id = aliceU.id
       ∧ u.token_version ≤ aliceU.token_version
       ∧ u.refresh_token_version ≤ aliceU.refresh_token_version
       ∧ ((aliceU.token_version = u.token_version
           ∧ aliceU.refresh_token_version = u.refresh_token_version)
          ∨ ((Op.sweep 100).isLogout = true
             ∧ aliceU.token_version = u.token_version + 1
             ∧ aliceU.refresh_token_version = u.refresh_token_version + 1)))
    ∨ (aliceU.token_version = 0 ∧ aliceU.refresh_token_version = 0) :=
  claim_C9_versions_monotone ⟨[aliceU]⟩ (Op.sweep 100) aliceU (by decide)

/-- C10 counterexample: after a second reset request for `bob`, bob's
row stores the hash of the new secret with a live expiry, yet
`verify_reset_token` applied to the new secret returns NO account,
because another account (`u1R`) holds the first non-NULL reset token
in table order. -/
theorem claim_C10_counterexample :
    (generate_reset_token
        (generate_reset_token ⟨[u1R, bobU]⟩ "b@x.com" "old" 5 0).1
        "b@x.com" "new" 6 0).1
      = ⟨[u1R, { bobU with reset_token := some (Digest.bcrypt "new" 6)
                           reset_token_expiry := some 3600 }]⟩
    ∧ verify_reset_token
        (generate_reset_token
          (generate_reset_token ⟨[u1R, bobU]⟩ "b@x.com" "old" 5 0).1
          "b@x.com" "new" 6 0).1
        "new" 0 = Except.ok none
    ∧ verify_password "new" (Digest.bcrypt "new" 6) = Except.ok true
    ∧ ¬ (3600 : Int) < 0 := by decide

/-- C10 amended: when no OTHER account holds an outstanding reset
token, a second `generate_reset_token` for the same email overwrites
the stored hash and expiry, the earlier secret (when distinct from the
new one) no longer verifies for any account, and the most recently
returned secret verifies to exactly that account. -/
theorem claim_C10_reset_overwrite (db : DB) (email s1 s2 : String)
    (salt1 salt2 : Nat) (t1 t2 now : Int) (u : User)
    (hfind : db.users.find? (fun v => v.email == email) = some u)
    (hother : ∀ v ∈ db.users, v.reset_token.isSome = true → (v.email == email) = true)
    (hne : s1 ≠ s2)
    (hnotexp : ¬ t2 + RESET_TOKEN_EXPIRY_SECONDS < now) :
    verify_reset_token
      ((generate_reset_token
        ((generate_reset_token db email s1 salt1 t1).1) email s2 salt2 t2).1)
      s1 now = Except.ok none
    ∧ verify_reset_token
      ((generate_reset_token
        ((generate_reset_token db email s1 salt1 t1).1) email s2 salt2 t2).1)
      s2 now
      = Except.ok (some { u with
          reset_token := some (hash_password s2 salt2)
          reset_token_expiry := some (t2 + RESET_TOKEN_EXPIRY_SECONDS) }) := by
  have hdb1 : (generate_reset_token db email s1 salt1 t1).1
      = ⟨updateFirst (fun v => v.email == email)
          (fun w => { w with reset_token := some (hash_password s1 salt1)
                             reset_token_expiry := some (t1 + RESET_TOKEN_EXPIRY_SECONDS) })
          db.users⟩ := by
    simp [generate_reset_token, hfind]
  have hfind1 : ((generate_reset_token db email s1 salt1 t1).1).users.find?
        (fun v => v.email == email)
      = some { u with reset_token := some (hash_password s1 salt1)
                      reset_token_expiry := some (t1 + RESET_TOKEN_EXPIRY_SECONDS) } := by
    rw [hdb1]
    have := find?_updateFirst (p := fun v => v.email == email)
      (f := fun w => { w with reset_token := some (hash_password s1 salt1)
                              reset_token_expiry := some (t1 + RESET_TOKEN_EXPIRY_SECONDS) })
      (fun _ => rfl) db.users
    rw [show (⟨updateFirst (fun v => v.email == email)
        (fun w => { w with reset_token := some (hash_password s1 salt1)
                           reset_token_expiry := some (t1 + RESET_TOKEN_EXPIRY_SECONDS) })
        db.users⟩ : DB).users
      = updateFirst (fun v => v.email == email)
        (fun w => { w with reset_token := some (hash_password s1 salt1)
                           reset_token_expiry := some (t1 + RESET_TOKEN_EXPIRY_SECONDS) })
        db.users from rfl]
    rw [this, hfind, Option.map_some']
  have hdb2 : ((generate_reset_token
        ((generate_reset_token db email s1 salt1 t1).1) email s2 salt2 t2).1)
      = ⟨updateFirst (fun v => v.email == email)
          (fun w => { w with reset_token := some (hash_password s2 salt2)
                             reset_token_expiry := some (t2 + RESET_TOKEN_EXPIRY_SECONDS) })
          (updateFirst (fun v => v.email == email)
            (fun w => { w with reset_token := some (hash_password s1 salt1)
                               reset_token_expiry := some (t1 + RESET_TOKEN_EXPIRY_SECONDS) })
            db.users)⟩ := by
    rw [hdb1] at hfind1 ⊢
    simp [generate_reset_token, hfind1]
  have hcomp : ((generate_reset_token
        ((generate_reset_token db email s1 salt1 t1).1) email s2 salt2 t2).1)
      = ⟨updateFirst (fun v => v.email == email)
          (fun w => { w with reset_token := some (hash_password s2 salt2)
                             reset_token_expiry := some (t2 + RESET_TOKEN_EXPIRY_SECONDS) })
          db.users⟩ := by
    rw [hdb2]
    rw [updateFirst_updateFirst (q := fun v => v.email == email)
      (f := fun w => { w with reset_token := some (hash_password s1 salt1)
                              reset_token_expiry := some (t1 + RESET_TOKEN_EXPIRY_SECONDS) })
      (g := fun w => { w with reset_token := some (hash_password s2 salt2)
                              reset_token_expiry := some (t2 + RESET_TOKEN_EXPIRY_SECONDS) })
      (fun _ => rfl) db.users]
  have hfindtok : ((generate_reset_token
        ((generate_reset_token db email s1 salt1 t1).1) email s2 salt2 t2).1).users.find?
        (fun v => v.reset_token.isSome)
      = some { u with reset_token := some (hash_password s2 salt2)
                      reset_token_expiry := some (t2 + RESET_TOKEN_EXPIRY_SECONDS) } := by
    rw [hcomp]
    exact find?_updateFirst_of_forall hfind hother rfl
  constructor
  · simp only [verify_reset_token, hfindtok]
    simp [verify_password, hash_password, hnotexp, hne]
  · simp only [verify_reset_token, hfindtok]
    simp [verify_password, hash_password, hnotexp]

/-- C10 witness: a single-account store; the superseded secret fails,
the fresh one succeeds. -/
theorem claim_C10_witness :
    verify_reset_token
      ((generate_reset_token
        ((generate_reset_token ⟨[bobU]⟩ "b@x.com" "old" 5 0).1) "b@x.com" "new" 6 0).1)
      "old" 50 = Except.ok none
    ∧ verify_reset_token
      ((generate_reset_token
        ((generate_reset_token ⟨[bobU]⟩ "b@x.com" "old" 5 0).1) "b@x.com" "new" 6 0).1)
      "new" 50
      = Except.ok (some { bobU with
          reset_token := some (hash_password "new" 6)
          reset_token_expiry := some (0 + RESET_TOKEN_EXPIRY_SECONDS) }) :=
  claim_C10_reset_overwrite ⟨[bobU]⟩ "b@x.com" "old" "new" 5 6 0 0 50 bobU
    (by decide) (by decide) (by decide) (by decide)

end FastapiProject
